import Mathlib

/-!
Shallow embedding of the SFTPGo SFTP server front end (`sftpd/server.go`)
and proofs about its connection, authentication, channel-dispatch and
host-key initialization logic.

Conventions:
* External collaborators (identity provider, metrics sink, go-proxyproto,
  x/crypto/ssh) are modelled either as abstract function parameters or as
  small definitions following their documented behaviour.
* Side effects (registry mutation, metrics, logs, socket operations) are
  reified as an event trace (`List Ev`); each Go function becomes a pure
  Lean function from its inputs and the outcomes of its external calls to
  a trace and a result.
* Go machine integers in the modelled code never overflow on the paths we
  treat, so they are embedded as `Int`/`Nat`.
-/

namespace Sftpd

/-- Events emitted by the server code: registry mutations, metrics,
structured logs, socket/channel operations, task spawns. -/
inductive Ev where
  | addConn (connId : String)
  | removeConn (connId : String)
  | metricLoginAttempt (method : String)
  | metricLoginResult (method : String) (success : Bool)
  | logConnectionFailed (user ip method msg : String)
  | logWarn (msg : String)
  | logDebug (msg : String)
  | logInfo (msg : String)
  | sendExitStatus (status : Nat)
  | serverClose
  | sockClose
  | spawnHandshakeTask (connId : String)
  | spawnSftpTask (connId : String)
  deriving DecidableEq, Repr

/-- `filepath.IsAbs` on Unix: a path is absolute iff it starts with `/`
(stated on the character list so the kernel can evaluate it). -/
def isAbs (p : String) : Bool := p.data.head? = some '/'

/-- The identity-provider user record (`dataprovider.User`), restricted to
the fields the server front end consults.  The two login-policy predicates
live in the dataprovider package, outside the embedded source; they are
modelled from the spec: "the login method is not in the user's allowed
methods" and "the remote address is not in the user's allowed sources"
become membership in explicit allow-lists. -/
structure User where
  id : Int
  username : String
  homeDir : String
  maxSessions : Int
  /-- Modelled from the spec: the user's allowed login methods
  (`User.IsLoginMethodAllowed`). -/
  allowedLoginMethods : List String
  /-- Modelled from the spec: the user's allowed source addresses
  (`User.IsLoginFromAddrAllowed`). -/
  allowedSources : List String
  deriving DecidableEq, Repr

/-- `User.IsLoginMethodAllowed`: membership in the allowed-methods list. -/
def User.isLoginMethodAllowed (u : User) (method : String) : Bool :=
  u.allowedLoginMethods.contains method

/-- `User.IsLoginFromAddrAllowed`: membership in the allowed-sources list. -/
def User.isLoginFromAddrAllowed (u : User) (remoteAddr : String) : Bool :=
  u.allowedSources.contains remoteAddr

/-- `json.Marshal` of a `dataprovider.User`.  Marshalling this plain struct
cannot fail in Go, so the embedding is a total injective encoding standing
for the JSON serialization. -/
def marshalUser (u : User) : String :=
  String.intercalate "|" [toString u.id, u.username, u.homeDir,
    toString u.maxSessions, String.intercalate "," u.allowedLoginMethods,
    String.intercalate "," u.allowedSources]

/-- The `ssh.Permissions` envelope: `loginUser` stores exactly the two
extensions `user` and `login_method`. -/
structure Permissions where
  extUser : String
  extLoginMethod : String
  deriving DecidableEq, Repr

/-- `loginUser` (server.go:461-497).  `getActiveSessions` reads the live
connection registry and is passed in explicitly.  The Go source nests the
session check (`if MaxSessions > 0 { if active >= MaxSessions { error } }`);
the conjunction below is that nesting flattened. -/
def loginUser (getActiveSessions : String → Int) (user : User)
    (loginMethod remoteAddr publicKey : String) : Except String Permissions :=
  if !isAbs user.homeDir then
    .error ("cannot login user with invalid home dir: " ++ user.homeDir)
  else if 0 < user.maxSessions ∧ getActiveSessions user.username ≥ user.maxSessions then
    .error ("too many open sessions: " ++ toString (getActiveSessions user.username))
  else if !user.isLoginMethodAllowed loginMethod then
    .error ("Login method " ++ loginMethod ++ " is not allowed for user " ++ user.username)
  else if !user.isLoginFromAddrAllowed remoteAddr then
    .error ("Login for user " ++ user.username ++ " is not allowed from this address: " ++ remoteAddr)
  else
    let json := marshalUser user
    let lm := if publicKey.length > 0 then loginMethod ++ ": " ++ publicKey else loginMethod
    .ok { extUser := json, extLoginMethod := lm }

/-- `Except.isOk` for our result values. -/
def exceptIsOk {α β : Type} (e : Except α β) : Bool :=
  match e with
  | .ok _ => true
  | .error _ => false

/-- C2 — For every identity-provider-approved user record, `loginUser`
returns an error (and no permissions envelope) exactly when the home
directory is not absolute, or `MaxSessions` is positive and the active
sessions meet or exceed it, or the login method is not allowed, or the
remote address is not allowed; otherwise it returns an envelope whose
`user` extension is the serialized user and whose `login_method`
extension is the login method, extended with the public-key fingerprint
exactly when a non-empty public key was supplied. -/
theorem loginUser_characterization (gas : String → Int) (u : User)
    (m a pk : String) :
    (exceptIsOk (loginUser gas u m a pk) = true ↔
      (isAbs u.homeDir = true ∧
        ¬(0 < u.maxSessions ∧ gas u.username ≥ u.maxSessions) ∧
        u.isLoginMethodAllowed m = true ∧
        u.isLoginFromAddrAllowed a = true)) ∧
    (∀ p : Permissions, loginUser gas u m a pk = .ok p →
      p.extUser = marshalUser u ∧
      p.extLoginMethod = if pk.length > 0 then m ++ ": " ++ pk else m) := by
  constructor
  · by_cases h1 : isAbs u.homeDir = true <;>
      by_cases h2 : 0 < u.maxSessions ∧ gas u.username ≥ u.maxSessions <;>
      by_cases h3 : u.isLoginMethodAllowed m = true <;>
      by_cases h4 : u.isLoginFromAddrAllowed a = true <;>
      simp [loginUser, exceptIsOk, h1, h2, h3, h4]
  · intro p hp
    unfold loginUser at hp
    by_cases h1 : isAbs u.homeDir = true <;>
      by_cases h2 : 0 < u.maxSessions ∧ gas u.username ≥ u.maxSessions <;>
      by_cases h3 : u.isLoginMethodAllowed m = true <;>
      by_cases h4 : u.isLoginFromAddrAllowed a = true <;>
      simp [h1, h2, h3, h4] at hp
    simp [← hp]

/-- Witness for C2 at a concrete user, method, address and public key. -/
theorem loginUser_characterization_witness :
    exceptIsOk (loginUser (fun _ => 0)
      { id := 1, username := "alice", homeDir := "/home/alice", maxSessions := 2,
        allowedLoginMethods := ["publickey"], allowedSources := ["10.0.0.1:22"] }
      "publickey" "10.0.0.1:22" "SHA256:fp") = true :=
  (loginUser_characterization (fun _ => 0)
      { id := 1, username := "alice", homeDir := "/home/alice", maxSessions := 2,
        allowedLoginMethods := ["publickey"], allowedSources := ["10.0.0.1:22"] }
      "publickey" "10.0.0.1:22" "SHA256:fp").1.mpr (by decide)

/-! ## Live-connection registry and the SFTP serving task (C1, C3) -/

/-- Modelled from the spec: the live-connection registry is the set of
registered connections; `addConnection` inserts one and `removeConnection`
deletes it.  (The registry itself lives in the sftpd connection manager,
outside the embedded source file; only its insert/remove calls appear in
`handleSftpConnection`.)  Registries are lists of connection ids, and an
event acts on a registry as follows. -/
def applyEv (reg : List String) : Ev → List String
  | .addConn c => c :: reg
  | .removeConn c => reg.erase c
  | _ => reg

/-- Apply a whole event trace to a registry, left to right. -/
def applyTrace (reg : List String) (t : List Ev) : List String :=
  t.foldl applyEv reg

/-- The outcome of `sftp.RequestServer.Serve` as observed by
`handleSftpConnection`: a nil error, a clean `io.EOF`, any other error, or a
panic escaping `Serve` (in which case the deferred calls still run). -/
inductive ServeResult where
  | ok
  | eof
  | err (msg : String)
  | panics (msg : String)
  deriving DecidableEq, Repr

/-- The events of the `if err == io.EOF / else if err != nil` epilogue of
`handleSftpConnection` (server.go:440-448).  On `io.EOF`: debug log, an
`exit-status 0` request on the channel, another debug log, `server.Close()`.
On any other non-nil error: a warning log only.  On a nil error or a panic
escaping `Serve`: nothing. -/
def serveEvents (r : ServeResult) : List Ev :=
  match r with
  | .eof => [.logDebug "connection closed, sending exit status", .sendExitStatus 0,
             .logDebug "sent exit status", .serverClose]
  | .err m => [.logWarn ("connection closed with error: " ++ m)]
  | .ok => []
  | .panics _ => []

/-- `handleSftpConnection` (server.go:431-449) as an event trace:
`addConnection` runs first, the request server serves with outcome `r`, and
the deferred `removeConnection` runs on every exit path — normal return,
serve error, and panic unwinding alike (Go `defer` semantics). -/
def handleSftpConnection (connId : String) (r : ServeResult) : List Ev :=
  Ev.addConn connId :: (serveEvents r ++ [Ev.removeConn connId])

/-- C1 — The serving task's first action registers the connection and its
last action deregisters it, on every exit path (nil error, EOF, other error,
panic); the registry is restored to its prior value, and at every point
strictly between registration and deregistration the connection is in the
registry, so a connection is live exactly while its SFTP channel is
serving. -/
theorem handleSftp_registry_invariant (c : String) (r : ServeResult)
    (reg : List String) :
    (handleSftpConnection c r).head? = some (.addConn c) ∧
    (handleSftpConnection c r).getLast? = some (.removeConn c) ∧
    applyTrace reg (handleSftpConnection c r) = reg ∧
    (∀ k, 1 ≤ k → k < (handleSftpConnection c r).length →
      c ∈ applyTrace reg ((handleSftpConnection c r).take k)) := by
  cases r <;>
    refine ⟨rfl, rfl, by simp [handleSftpConnection, serveEvents, applyTrace, applyEv], ?_⟩ <;>
    · intro k h1 h2
      simp [handleSftpConnection, serveEvents] at h2
      interval_cases k <;>
        simp [handleSftpConnection, serveEvents, applyTrace, applyEv]

/-- Witness for C1 at a concrete connection, serve outcome and registry. -/
theorem handleSftp_registry_invariant_witness :
    applyTrace ["c0"] (handleSftpConnection "c1" .eof) = ["c0"] ∧
    "c1" ∈ applyTrace ["c0"] ((handleSftpConnection "c1" .eof).take 1) :=
  ⟨(handleSftp_registry_invariant "c1" .eof ["c0"]).2.2.1,
   (handleSftp_registry_invariant "c1" .eof ["c0"]).2.2.2 1 (by decide) (by decide)⟩

/-- C3 counterexample — on a non-EOF serve error the handler only logs: no
`server.Close()` happens on that path, contradicting the claim that the
handler "closes the server" there. -/
theorem handleSftp_error_no_close_cex :
    Ev.serverClose ∉ handleSftpConnection "c1" (.err "write: broken pipe") := by
  decide

/-- C3 (amended) — on clean EOF the handler sends an `exit-status 0` reply
on the channel and closes the server; on any other serve error it logs the
error but does not close the server and sends no exit status. -/
theorem handleSftp_serve_outcomes (c m : String) :
    Ev.sendExitStatus 0 ∈ handleSftpConnection c .eof ∧
    Ev.serverClose ∈ handleSftpConnection c .eof ∧
    Ev.logWarn ("connection closed with error: " ++ m) ∈ handleSftpConnection c (.err m) ∧
    Ev.serverClose ∉ handleSftpConnection c (.err m) ∧
    Ev.sendExitStatus 0 ∉ handleSftpConnection c (.err m) := by
  simp [handleSftpConnection, serveEvents]

/-- Witness for C3 at a concrete connection and serve error. -/
theorem handleSftp_serve_outcomes_witness :
    Ev.sendExitStatus 0 ∈ handleSftpConnection "c9" .eof ∧
    Ev.serverClose ∉ handleSftpConnection "c9" (.err "broken pipe") :=
  ⟨(handleSftp_serve_outcomes "c9" "broken pipe").1,
   (handleSftp_serve_outcomes "c9" "broken pipe").2.2.2.1⟩

/-! ## Credential validators and login metrics (C4) -/

/-- Modelled from the spec: the dataprovider login-method tag for passwords. -/
def sshLoginMethodPassword : String := "password"

/-- Modelled from the spec: the dataprovider login-method tag for public keys. -/
def sshLoginMethodPublicKey : String := "publickey"

/-- Modelled from the spec: the dataprovider login-method tag for
keyboard-interactive authentication. -/
def sshLoginMethodKeyboardInteractive : String := "keyboard-interactive"

/-- Is an event a metrics-sink emission? -/
def isMetricEv : Ev → Bool
  | .metricLoginAttempt _ => true
  | .metricLoginResult _ _ => true
  | _ => false

/-- `validatePublicKeyCredentials` (server.go:543-559): emits the
login-attempt metric, consults the identity provider
(`dataprovider.CheckUserAndPubKey`, outside this file; its result — user
record and key fingerprint, or an error — is the `checkRes` parameter),
runs `loginUser` on identity success, logs a connection failure on any
error, and emits the login-result metric last. -/
def validatePublicKeyCredentials (gas : String → Int)
    (checkRes : Except String (User × String)) (connUser remoteAddr : String) :
    List Ev × Except String Permissions :=
  let method := sshLoginMethodPublicKey
  let res : Except String Permissions :=
    match checkRes with
    | .ok (user, keyID) => loginUser gas user method remoteAddr keyID
    | .error e => .error e
  let failLog : List Ev :=
    match res with
    | .ok _ => []
    | .error e => [.logConnectionFailed connUser remoteAddr method e]
  ([Ev.metricLoginAttempt method] ++ failLog ++
    [Ev.metricLoginResult method (exceptIsOk res)], res)

/-- `validatePasswordCredentials` (server.go:561-576), with
`dataprovider.CheckUserAndPass`'s result passed as `checkRes`. -/
def validatePasswordCredentials (gas : String → Int)
    (checkRes : Except String User) (connUser remoteAddr : String) :
    List Ev × Except String Permissions :=
  let method := sshLoginMethodPassword
  let res : Except String Permissions :=
    match checkRes with
    | .ok user => loginUser gas user method remoteAddr ""
    | .error e => .error e
  let failLog : List Ev :=
    match res with
    | .ok _ => []
    | .error e => [.logConnectionFailed connUser remoteAddr method e]
  ([Ev.metricLoginAttempt method] ++ failLog ++
    [Ev.metricLoginResult method (exceptIsOk res)], res)

/-- `validateKeyboardInteractiveCredentials` (server.go:578-593), with
`dataprovider.CheckKeyboardInteractiveAuth`'s result passed as `checkRes`. -/
def validateKeyboardInteractiveCredentials (gas : String → Int)
    (checkRes : Except String User) (connUser remoteAddr : String) :
    List Ev × Except String Permissions :=
  let method := sshLoginMethodKeyboardInteractive
  let res : Except String Permissions :=
    match checkRes with
    | .ok user => loginUser gas user method remoteAddr ""
    | .error e => .error e
  let failLog : List Ev :=
    match res with
    | .ok _ => []
    | .error e => [.logConnectionFailed connUser remoteAddr method e]
  ([Ev.metricLoginAttempt method] ++ failLog ++
    [Ev.metricLoginResult method (exceptIsOk res)], res)

/-- C4 — Each of the three credential validators emits exactly one
login-attempt metric and exactly one login-result metric, the attempt
strictly before the result, on success and failure alike: the metric
events of each validator's trace are precisely
`[login_attempt method, login_result method outcome]`. -/
theorem validators_metric_discipline (gas : String → Int)
    (pkRes : Except String (User × String)) (pwRes kbRes : Except String User)
    (connUser remoteAddr : String) :
    ((validatePublicKeyCredentials gas pkRes connUser remoteAddr).1.filter isMetricEv =
      [.metricLoginAttempt sshLoginMethodPublicKey,
       .metricLoginResult sshLoginMethodPublicKey
         (exceptIsOk (validatePublicKeyCredentials gas pkRes connUser remoteAddr).2)]) ∧
    ((validatePasswordCredentials gas pwRes connUser remoteAddr).1.filter isMetricEv =
      [.metricLoginAttempt sshLoginMethodPassword,
       .metricLoginResult sshLoginMethodPassword
         (exceptIsOk (validatePasswordCredentials gas pwRes connUser remoteAddr).2)]) ∧
    ((validateKeyboardInteractiveCredentials gas kbRes connUser remoteAddr).1.filter isMetricEv =
      [.metricLoginAttempt sshLoginMethodKeyboardInteractive,
       .metricLoginResult sshLoginMethodKeyboardInteractive
         (exceptIsOk (validateKeyboardInteractiveCredentials gas kbRes connUser remoteAddr).2)]) := by
  refine ⟨?_, ?_, ?_⟩
  · cases pkRes with
    | ok uk =>
      obtain ⟨user, keyID⟩ := uk
      cases h : loginUser gas user sshLoginMethodPublicKey remoteAddr keyID <;>
        simp [validatePublicKeyCredentials, h, isMetricEv]
    | error e => simp [validatePublicKeyCredentials, isMetricEv]
  · cases pwRes with
    | ok user =>
      cases h : loginUser gas user sshLoginMethodPassword remoteAddr "" <;>
        simp [validatePasswordCredentials, h, isMetricEv]
    | error e => simp [validatePasswordCredentials, isMetricEv]
  · cases kbRes with
    | ok user =>
      cases h : loginUser gas user sshLoginMethodKeyboardInteractive remoteAddr "" <;>
        simp [validateKeyboardInteractiveCredentials, h, isMetricEv]
    | error e => simp [validateKeyboardInteractiveCredentials, isMetricEv]

/-! ## PROXY-protocol listener wrapping (C5) -/

/-- go-proxyproto policy verdicts for a connecting peer. -/
inductive ProxyPolicy where
  | use
  | ignore
  | reject
  | require
  deriving DecidableEq, Repr

/-- Modelled from the go-proxyproto library: whether a policy verdict lets
the connection proceed (`REJECT` closes it; `USE`, `IGNORE` and `REQUIRE`
keep it open). -/
def ProxyPolicy.acceptsConn : ProxyPolicy → Bool
  | .reject => false
  | _ => true

/-- Modelled from the go-proxyproto library: `LaxWhiteListPolicy` yields
`USE` for peers matching the allow-list and `IGNORE` otherwise (the
header is parsed but discarded, connection accepted); building the policy
fails when an entry does not parse as an IP or CIDR (`validEntry`).
List membership stands for the library's IP/CIDR match. -/
def laxWhiteListPolicy (validEntry : String → Bool) (allowed : List String) :
    Except String (String → ProxyPolicy) :=
  if allowed.all validEntry then
    .ok (fun upstream => if allowed.contains upstream then .use else .ignore)
  else .error "invalid leading ip or CIDR"

/-- Modelled from the go-proxyproto library: `StrictWhiteListPolicy` yields
`USE` for peers matching the allow-list and `REJECT` otherwise. -/
def strictWhiteListPolicy (validEntry : String → Bool) (allowed : List String) :
    Except String (String → ProxyPolicy) :=
  if allowed.all validEntry then
    .ok (fun upstream => if allowed.contains upstream then .use else .reject)
  else .error "invalid leading ip or CIDR"

/-- A wrapped `proxyproto.Listener`: the optional policy function (a nil
`Policy` means the header is used whenever present). -/
structure ProxyListener where
  policy : Option (String → ProxyPolicy)

/-- `getProxyListener` (server.go:233-262): `none` (the raw listener, no
PROXY parsing) when `ProxyProtocol ≤ 0`; otherwise a wrapped listener whose
policy function is the lax whitelist for policy 1 with a non-empty
allow-list, the constant `REQUIRE` for policy 2 with an empty allow-list,
the strict whitelist for policy 2 with a non-empty allow-list, and nil in
the remaining cases. -/
def getProxyListener (validEntry : String → Bool) (proxyProtocol : Int)
    (proxyAllowed : List String) : Except String (Option ProxyListener) :=
  if 0 < proxyProtocol then
    if proxyProtocol = 1 ∧ proxyAllowed ≠ [] then
      match laxWhiteListPolicy validEntry proxyAllowed with
      | .error e => .error e
      | .ok f => .ok (some ⟨some f⟩)
    else if proxyProtocol = 2 then
      if proxyAllowed = [] then
        .ok (some ⟨some (fun _ => .require)⟩)
      else
        match strictWhiteListPolicy validEntry proxyAllowed with
        | .error e => .error e
        | .ok f => .ok (some ⟨some f⟩)
    else
      .ok (some ⟨none⟩)
  else
    .ok none

/-- C5 — The listener wrapping implements the PROXY policy table: policy
off (0) uses the raw listener with no PROXY parsing; policy optional (1)
with a non-empty allow-list maps a peer outside the list to IGNORE (header
discarded, connection accepted); policy required (2) with a non-empty
allow-list maps a peer outside the list to REJECT, and with an empty
allow-list maps every peer to REQUIRE. -/
theorem getProxyListener_policy_table (validEntry : String → Bool)
    (allowed : List String) (peer : String)
    (hv : allowed.all validEntry = true) :
    (getProxyListener validEntry 0 allowed = .ok none) ∧
    (allowed ≠ [] → allowed.contains peer = false →
      ∃ f, getProxyListener validEntry 1 allowed = .ok (some ⟨some f⟩) ∧
        f peer = .ignore ∧ (f peer).acceptsConn = true) ∧
    (allowed ≠ [] → allowed.contains peer = false →
      ∃ f, getProxyListener validEntry 2 allowed = .ok (some ⟨some f⟩) ∧
        f peer = .reject ∧ (f peer).acceptsConn = false) ∧
    (∃ f, getProxyListener validEntry 2 [] = .ok (some ⟨some f⟩) ∧
      ∀ q, f q = .require) := by
  refine ⟨by simp [getProxyListener], ?_, ?_, ?_⟩
  · intro hne hpeer
    have hpeer' : peer ∉ allowed := by simpa using hpeer
    refine ⟨fun upstream => if allowed.contains upstream then .use else .ignore, ?_, ?_, ?_⟩ <;>
      simp [getProxyListener, laxWhiteListPolicy, hv, hne, hpeer', ProxyPolicy.acceptsConn]
  · intro hne hpeer
    have hpeer' : peer ∉ allowed := by simpa using hpeer
    refine ⟨fun upstream => if allowed.contains upstream then .use else .reject, ?_, ?_, ?_⟩ <;>
      simp [getProxyListener, strictWhiteListPolicy, hv, hne, hpeer', ProxyPolicy.acceptsConn]
  · exact ⟨fun _ => .require, by simp [getProxyListener], fun _ => rfl⟩

/-- Witness for C5 at a concrete allow-list and outside peer. -/
theorem getProxyListener_policy_table_witness :
    getProxyListener (fun _ => true) 0 ["192.168.1.0"] = .ok none ∧
    (∃ f, getProxyListener (fun _ => true) 2 ["192.168.1.0"] =
        .ok (some ⟨some f⟩) ∧ f "10.0.0.1" = .reject ∧
        ProxyPolicy.acceptsConn (f "10.0.0.1") = false) :=
  ⟨(getProxyListener_policy_table (fun _ => true) ["192.168.1.0"] "10.0.0.1"
      (by decide)).1,
   (getProxyListener_policy_table (fun _ => true) ["192.168.1.0"] "10.0.0.1"
      (by decide)).2.2.1 (by decide) (by decide)⟩

/-! ## Handshake failure path (C6) -/

/-- An SSH handshake failure as returned by `ssh.NewServerConn`: the error
may or may not be an `*ssh.ServerAuthError`. -/
structure HandshakeErr where
  isServerAuthError : Bool
  msg : String
  deriving DecidableEq, Repr

/-- The handshake-failure path of `AcceptInboundConnection`
(server.go:346-353) as an event trace.  `ssh.NewServerConn` closes the
underlying socket before returning a handshake error (x/crypto/ssh
behaviour); the handler then logs a warning, emits a connection-failed log
only when the error is not an `*ssh.ServerAuthError`, and returns without
touching the registry or the metrics sink. -/
def acceptFailedHandshake (remoteIP : String) (e : HandshakeErr) : List Ev :=
  [Ev.sockClose, Ev.logWarn ("failed to accept an incoming connection: " ++ e.msg)] ++
    (if e.isServerAuthError then []
     else [Ev.logConnectionFailed "" remoteIP "no_auth_tryed" e.msg])

/-- C6 — On a failed SSH handshake the handler registers no connection and
emits no login-success metric, the socket is closed, and a
connection-failed log is emitted iff the failure is not an SSH
authentication error. -/
theorem acceptFailedHandshake_spec (ip : String) (e : HandshakeErr) :
    (∀ c, Ev.addConn c ∉ acceptFailedHandshake ip e) ∧
    (∀ m, Ev.metricLoginResult m true ∉ acceptFailedHandshake ip e) ∧
    Ev.sockClose ∈ acceptFailedHandshake ip e ∧
    (Ev.logConnectionFailed "" ip "no_auth_tryed" e.msg ∈ acceptFailedHandshake ip e ↔
      e.isServerAuthError = false) := by
  obtain ⟨auth, msg⟩ := e
  cases auth <;> simp [acceptFailedHandshake]

/-- Witness for C6 at a concrete non-auth handshake failure. -/
theorem acceptFailedHandshake_spec_witness :
    Ev.sockClose ∈ acceptFailedHandshake "203.0.113.7" ⟨false, "EOF"⟩ ∧
    Ev.logConnectionFailed "" "203.0.113.7" "no_auth_tryed" "EOF" ∈
      acceptFailedHandshake "203.0.113.7" ⟨false, "EOF"⟩ :=
  ⟨(acceptFailedHandshake_spec "203.0.113.7" ⟨false, "EOF"⟩).2.2.1,
   (acceptFailedHandshake_spec "203.0.113.7" ⟨false, "EOF"⟩).2.2.2.mpr rfl⟩

/-! ## Accept loop (C7) -/

/-- One iteration of the accept loop in `Initialize` (server.go:220-230):
`Accept` yields a possibly-nil connection and a possibly-nil error; a
handshake-engine task is spawned only when the connection is non-nil and
the error nil.  The loop body contains no break, return or panic, so the
`Bool` component — whether the loop continues — is `true` on every path. -/
def acceptLoopIter : Option String → Option String → List Ev × Bool
  | some c, none => ([Ev.spawnHandshakeTask c], true)
  | some _, some _ => ([], true)
  | none, _ => ([], true)

/-- C7 counterexample — an accept error produces an empty event trace: no
log is emitted, contradicting the claim that every accept error is
logged. -/
theorem acceptLoop_error_not_logged_cex :
    (acceptLoopIter none (some "accept tcp: too many open files")).1 = [] :=
  rfl

/-- C7 (amended) — the accept loop runs forever: every iteration continues
(no exit path), every socket accepted without error is handed to a new
concurrent handshake-engine task, and accept errors are silently ignored —
no event, in particular no log, is emitted for them. -/
theorem acceptLoopIter_spec (conn acceptErr : Option String) :
    (acceptLoopIter conn acceptErr).2 = true ∧
    (∀ c, conn = some c → acceptErr = none →
      (acceptLoopIter conn acceptErr).1 = [Ev.spawnHandshakeTask c]) ∧
    (acceptErr ≠ none → (acceptLoopIter conn acceptErr).1 = []) ∧
    (∀ m, Ev.logWarn m ∉ (acceptLoopIter conn acceptErr).1) := by
  cases conn <;> cases acceptErr <;> simp [acceptLoopIter]

/-- Witness for C7 at a concrete accepted socket and a concrete accept
error. -/
theorem acceptLoopIter_spec_witness :
    (acceptLoopIter (some "conn1") none).1 = [Ev.spawnHandshakeTask "conn1"] ∧
    (acceptLoopIter (some "conn2") (some "use of closed network connection")).1 = [] :=
  ⟨(acceptLoopIter_spec (some "conn1") none).2.1 "conn1" rfl rfl,
   (acceptLoopIter_spec (some "conn2") (some "use of closed network connection")).2.2.1
     (by simp)⟩

/-! ## Channel and channel-request dispatch (C8, C9) -/

/-- A channel request as delivered by x/crypto/ssh: a type string and the
raw payload byte list. -/
structure ChanRequest where
  reqType : String
  payload : List Nat
  deriving DecidableEq, Repr

/-- Go slice expression `xs[i:]` (with `high` defaulting to `len(xs)`):
the suffix from `i` when `i ≤ len(xs)`, a runtime panic otherwise
(`low ≤ high` is required whatever the capacity). -/
def goSliceFrom (xs : List Nat) (i : Nat) : Except String (List Nat) :=
  if i ≤ xs.length then .ok (xs.drop i)
  else .error "runtime error: slice bounds out of range"

/-- The bytes of the string `sftp`. -/
def sftpPayloadBytes : List Nat := [115, 102, 116, 112]

/-- The per-request dispatch inside `AcceptInboundConnection`
(server.go:410-427): a `subsystem` request binds SFTP exactly when the
payload after the four-byte length prefix equals `sftp` (replying OK and
spawning the SFTP task); an `exec` request replies with the SSH-command
router's verdict (`processSSHCommand`, defined outside this file, passed
as a parameter); any other request type replies not-OK.  The result is
`(reply-ok, sftp-bound)`, or an error for a panic escaping the handler. -/
def handleChannelRequest (processSSHCommand : List Nat → Bool)
    (req : ChanRequest) : Except String (Bool × Bool) :=
  if req.reqType = "subsystem" then
    match goSliceFrom req.payload 4 with
    | .error e => .error e
    | .ok rest =>
      if rest = sftpPayloadBytes then .ok (true, true) else .ok (false, false)
  else if req.reqType = "exec" then
    .ok (processSSHCommand req.payload, false)
  else
    .ok (false, false)

/-- x/crypto/ssh's `UnknownChannelType` reject-reason code. -/
def unknownChannelTypeCode : Nat := 3

/-- The outcome of the channel-type gate. -/
inductive ChannelDecision where
  | rejected (code : Nat) (msg : String)
  | accepted
  deriving DecidableEq, Repr

/-- The channel-type gate (server.go:396-400): any channel whose type is
not `session` is rejected with the unknown-channel-type code; `session`
channels are accepted. -/
def dispatchChannel (chType : String) : ChannelDecision :=
  if chType ≠ "session" then
    .rejected unknownChannelTypeCode "unknown channel type"
  else .accepted

/-- C8 — Every new channel whose type is not `session` (for example `x11`)
is rejected with the unknown-channel-type code; a `subsystem` request whose
payload after the four-byte length prefix is not `sftp` is replied not-OK;
a request of any type other than `subsystem` or `exec` is replied not-OK —
in both cases with a normal (non-panicking) reply, so the channel is not
torn down. -/
theorem channel_dispatch_rejections (psc : List Nat → Bool)
    (req : ChanRequest) (chType : String) :
    (chType ≠ "session" →
      dispatchChannel chType =
        .rejected unknownChannelTypeCode "unknown channel type") ∧
    (req.reqType = "subsystem" → 4 ≤ req.payload.length →
      req.payload.drop 4 ≠ sftpPayloadBytes →
      handleChannelRequest psc req = .ok (false, false)) ∧
    (req.reqType ≠ "subsystem" → req.reqType ≠ "exec" →
      handleChannelRequest psc req = .ok (false, false)) := by
  refine ⟨?_, ?_, ?_⟩
  · intro ht
    simp [dispatchChannel, ht]
  · intro ht hlen hrest
    simp [handleChannelRequest, ht, goSliceFrom, hlen, hrest]
  · intro h1 h2
    simp [handleChannelRequest, h1, h2]

/-- Witness for C8 at the concrete channel type `x11`, a concrete
non-`sftp` subsystem request and a concrete `shell` request. -/
theorem channel_dispatch_rejections_witness :
    dispatchChannel "x11" =
      .rejected unknownChannelTypeCode "unknown channel type" ∧
    handleChannelRequest (fun _ => false)
      ⟨"subsystem", [0, 0, 0, 4, 101, 99, 104, 111]⟩ = .ok (false, false) ∧
    handleChannelRequest (fun _ => false) ⟨"shell", []⟩ = .ok (false, false) :=
  ⟨(channel_dispatch_rejections (fun _ => false) ⟨"shell", []⟩ "x11").1 (by decide),
   (channel_dispatch_rejections (fun _ => false)
      ⟨"subsystem", [0, 0, 0, 4, 101, 99, 104, 111]⟩ "x11").2.1 rfl
      (by decide) (by decide),
   (channel_dispatch_rejections (fun _ => false) ⟨"shell", []⟩ "x11").2.2
     (by decide) (by decide)⟩

/-- C9 — The channel-request dispatcher is not total: a `subsystem` request
whose payload is shorter than 4 bytes makes `req.Payload[4:]` panic with a
bounds error instead of being replied not-OK. -/
theorem subsystem_short_payload_panics (psc : List Nat → Bool)
    (req : ChanRequest) (h1 : req.reqType = "subsystem")
    (h2 : req.payload.length < 4) :
    handleChannelRequest psc req =
      .error "runtime error: slice bounds out of range" := by
  have h3 : ¬ 4 ≤ req.payload.length := by omega
  simp [handleChannelRequest, h1, goSliceFrom, h3]

/-- Witness for C9 at a concrete one-byte subsystem payload. -/
theorem subsystem_short_payload_panics_witness :
    handleChannelRequest (fun _ => false) ⟨"subsystem", [7]⟩ =
      .error "runtime error: slice bounds out of range" :=
  subsystem_short_payload_panics (fun _ => false) ⟨"subsystem", [7]⟩ rfl (by decide)

/-! ## Host-key initialization (C10) -/

/-- The configuration-directory filesystem, as the set of existing paths. -/
structure FsState where
  files : List String
  deriving DecidableEq, Repr

/-- `os.Stat` + `!os.IsNotExist`: does the path exist? -/
def fileExists (fs : FsState) (p : String) : Bool := fs.files.contains p

/-- `filepath.Join dir name` for a clean directory path. -/
def fpJoin (dir name : String) : String := dir ++ "/" ++ name

/-- Default RSA host-key filename (server.go:26). -/
def defaultPrivateRSAKeyName : String := "id_rsa"

/-- Default ECDSA host-key filename (server.go:27). -/
def defaultPrivateECDSAKeyName : String := "id_ecdsa"

/-- A configured host key: the private-key path (server.go:128-131). -/
structure Key where
  privateKey : String
  deriving DecidableEq, Repr

/-- One iteration of `checkHostKeys`' default-key loop (server.go:523-538):
if the default file does not exist, generate it
(`utils.GenerateRSAKeys`/`GenerateECDSAKeys`, modelled by `genOK` deciding
success and, on success, creating the file), otherwise reuse it; then
append `Key{PrivateKey: k}` to the configured list.  A generation error is
returned unchanged. -/
def checkDefaultKey (genOK : String → Bool) (configDir : String)
    (st : List Key × FsState) (k : String) : Except String (List Key × FsState) :=
  if !fileExists st.2 (fpJoin configDir k) then
    if genOK (fpJoin configDir k) then
      .ok (st.1 ++ [⟨k⟩], ⟨st.2.files ++ [fpJoin configDir k]⟩)
    else .error ("cannot generate key: " ++ fpJoin configDir k)
  else .ok (st.1 ++ [⟨k⟩], st.2)

/-- The `for _, k := range defaultKeys` loop of `checkHostKeys`. -/
def checkDefaultKeysLoop (genOK : String → Bool) (configDir : String) :
    List String → List Key × FsState → Except String (List Key × FsState)
  | [], st => .ok st
  | k :: rest, st =>
    match checkDefaultKey genOK configDir st k with
    | .error e => .error e
    | .ok st' => checkDefaultKeysLoop genOK configDir rest st'

/-- `checkHostKeys` (server.go:520-541): when no host keys are configured,
run the default-key loop over the RSA and ECDSA default filenames;
otherwise leave the configuration untouched. -/
def checkHostKeys (genOK : String → Bool) (configDir : String)
    (keys : List Key) (fs : FsState) : Except String (List Key × FsState) :=
  if keys.length = 0 then
    checkDefaultKeysLoop genOK configDir
      [defaultPrivateRSAKeyName, defaultPrivateECDSAKeyName] ([], fs)
  else .ok (keys, fs)

/-- A parsed host key (`ssh.Signer`), abstract. -/
structure HostKey where
  keyMaterial : String
  deriving DecidableEq, Repr

/-- One iteration of the key-loading loop of `Initialize`
(server.go:177-196): resolve the path against the configuration directory
unless absolute, read the file (`ioutil.ReadFile`, modelled by `readFile`),
parse it (`ssh.ParsePrivateKey`, modelled by `parseKey`); either failure is
returned. -/
def loadOneKey (readFile : String → Except String String)
    (parseKey : String → Except String HostKey) (configDir : String)
    (k : Key) : Except String HostKey :=
  let privateFile := if isAbs k.privateKey then k.privateKey
                     else fpJoin configDir k.privateKey
  match readFile privateFile with
  | .error e => .error e
  | .ok privateBytes => parseKey privateBytes

/-- The `for _, k := range c.Keys` loop of `Initialize`: load every
configured key, aborting on the first failure. -/
def loadHostKeys (readFile : String → Except String String)
    (parseKey : String → Except String HostKey) (configDir : String) :
    List Key → Except String (List HostKey)
  | [] => .ok []
  | k :: rest =>
    match loadOneKey readFile parseKey configDir k with
    | .error e => .error e
    | .ok hk =>
      match loadHostKeys readFile parseKey configDir rest with
      | .error e => .error e
      | .ok hks => .ok (hk :: hks)

/-- The host-key phase of `Initialize` (server.go:172-196): `checkHostKeys`
followed by the loading loop; any error aborts `Initialize`. -/
def initHostKeysPhase (genOK : String → Bool)
    (readFile : String → Except String String)
    (parseKey : String → Except String HostKey) (configDir : String)
    (keys : List Key) (fs : FsState) : Except String (List Key × List HostKey) :=
  match checkHostKeys genOK configDir keys fs with
  | .error e => .error e
  | .ok (keys2, _) =>
    match loadHostKeys readFile parseKey configDir keys2 with
    | .error e => .error e
    | .ok hks => .ok (keys2, hks)

lemma checkDefaultKey_len (genOK : String → Bool) (configDir : String)
    (st : List Key × FsState) (k : String) (st' : List Key × FsState)
    (h : checkDefaultKey genOK configDir st k = .ok st') :
    st'.1.length = st.1.length + 1 := by
  unfold checkDefaultKey at h
  split_ifs at h <;> simp_all
  all_goals (subst h; simp)

lemma checkDefaultKeysLoop_len (genOK : String → Bool) (configDir : String) :
    ∀ (ks : List String) (st st' : List Key × FsState),
      checkDefaultKeysLoop genOK configDir ks st = .ok st' →
      st'.1.length = st.1.length + ks.length := by
  intro ks
  induction ks with
  | nil =>
    intro st st' h
    simp [checkDefaultKeysLoop] at h
    simp [← h]
  | cons k rest ih =>
    intro st st' h
    cases hck : checkDefaultKey genOK configDir st k with
    | error e => simp [checkDefaultKeysLoop, hck] at h
    | ok st1 =>
      simp only [checkDefaultKeysLoop, hck] at h
      have := ih st1 st' h
      have := checkDefaultKey_len genOK configDir st k st1 hck
      simp [List.length_cons]
      omega

lemma loadHostKeys_fail_of_mem (readFile : String → Except String String)
    (parseKey : String → Except String HostKey) (configDir : String) :
    ∀ (ks : List Key), (∃ k ∈ ks,
        exceptIsOk (loadOneKey readFile parseKey configDir k) = false) →
      exceptIsOk (loadHostKeys readFile parseKey configDir ks) = false := by
  intro ks
  induction ks with
  | nil => rintro ⟨k, hk, _⟩; cases hk
  | cons k rest ih =>
    rintro ⟨k0, hk0, hfail⟩
    cases hone : loadOneKey readFile parseKey configDir k with
    | error e => simp [loadHostKeys, hone, exceptIsOk]
    | ok hk =>
      rcases List.mem_cons.mp hk0 with rfl | hmem
      · rw [hone] at hfail
        simp [exceptIsOk] at hfail
      · have hrest := ih ⟨k0, hmem, hfail⟩
        cases hrec : loadHostKeys readFile parseKey configDir rest with
        | error e => simp [loadHostKeys, hone, hrec, exceptIsOk]
        | ok hks =>
          rw [hrec] at hrest
          simp [exceptIsOk] at hrest

/-- C10 — With an empty configured key list, initialization populates it
with exactly the default RSA and ECDSA key files in the configuration
directory (generating the ones that do not exist and reusing the ones that
do, touching no other file), the resulting key list is non-empty, and a
read or parse failure for any configured key makes the host-key phase of
`Initialize` fail. -/
theorem hostKeys_defaults_and_fatality (genOK : String → Bool)
    (readFile : String → Except String String)
    (parseKey : String → Except String HostKey) (configDir : String)
    (keys : List Key) (fs : FsState) :
    ((∀ f, genOK f = true) →
      ∃ fs', checkHostKeys genOK configDir [] fs =
          .ok ([⟨defaultPrivateRSAKeyName⟩, ⟨defaultPrivateECDSAKeyName⟩], fs') ∧
        fileExists fs' (fpJoin configDir defaultPrivateRSAKeyName) = true ∧
        fileExists fs' (fpJoin configDir defaultPrivateECDSAKeyName) = true ∧
        (∀ p, fileExists fs p = true → fileExists fs' p = true) ∧
        (∀ p, fileExists fs' p = true → fileExists fs p = true ∨
          p = fpJoin configDir defaultPrivateRSAKeyName ∨
          p = fpJoin configDir defaultPrivateECDSAKeyName)) ∧
    (∀ st, checkHostKeys genOK configDir keys fs = .ok st → st.1 ≠ []) ∧
    (∀ keys2 fs2, checkHostKeys genOK configDir keys fs = .ok (keys2, fs2) →
      (∃ k ∈ keys2, exceptIsOk (loadOneKey readFile parseKey configDir k) = false) →
      exceptIsOk (initHostKeysPhase genOK readFile parseKey configDir keys fs) = false) := by
  refine ⟨?_, ?_, ?_⟩
  · intro hgen
    cases h1 : fileExists fs (fpJoin configDir defaultPrivateRSAKeyName) with
    | true =>
      cases h2 : fileExists fs (fpJoin configDir defaultPrivateECDSAKeyName) with
      | true =>
        refine ⟨fs, ?_, h1, h2, fun p hp => hp, fun p hp => Or.inl hp⟩
        simp [checkHostKeys, checkDefaultKeysLoop, checkDefaultKey, h1, h2]
      | false =>
        refine ⟨⟨fs.files ++ [fpJoin configDir defaultPrivateECDSAKeyName]⟩, ?_, ?_, ?_, ?_, ?_⟩
        · simp [checkHostKeys, checkDefaultKeysLoop, checkDefaultKey, h1, h2, hgen]
        · simp [fileExists, List.contains] at h1 ⊢
          tauto
        · simp [fileExists, List.contains]
        · intro p hp
          simp [fileExists, List.contains] at hp ⊢
          tauto
        · intro p hp
          simp [fileExists, List.contains] at hp ⊢
          tauto
    | false =>
      cases h2 : fileExists ⟨fs.files ++ [fpJoin configDir defaultPrivateRSAKeyName]⟩
          (fpJoin configDir defaultPrivateECDSAKeyName) with
      | true =>
        refine ⟨⟨fs.files ++ [fpJoin configDir defaultPrivateRSAKeyName]⟩, ?_, ?_, h2, ?_, ?_⟩
        · simp [checkHostKeys, checkDefaultKeysLoop, checkDefaultKey, h1, h2, hgen]
        · simp [fileExists, List.contains]
        · intro p hp
          simp [fileExists, List.contains] at hp ⊢
          tauto
        · intro p hp
          simp [fileExists, List.contains] at hp ⊢
          tauto
      | false =>
        refine ⟨⟨(fs.files ++ [fpJoin configDir defaultPrivateRSAKeyName]) ++
            [fpJoin configDir defaultPrivateECDSAKeyName]⟩, ?_, ?_, ?_, ?_, ?_⟩
        · simp [checkHostKeys, checkDefaultKeysLoop, checkDefaultKey, h1, h2, hgen]
        · simp [fileExists, List.contains]
        · simp [fileExists, List.contains]
        · intro p hp
          simp [fileExists, List.contains] at hp ⊢
          tauto
        · intro p hp
          simp [fileExists, List.contains] at hp ⊢
          tauto
  · intro st hst
    by_cases hk : keys.length = 0
    · have hlen : st.1.length = 2 := by
        unfold checkHostKeys at hst
        rw [if_pos hk] at hst
        have := checkDefaultKeysLoop_len genOK configDir
          [defaultPrivateRSAKeyName, defaultPrivateECDSAKeyName] ([], fs) st hst
        simpa using this
      intro hnil
      rw [hnil] at hlen
      simp at hlen
    · unfold checkHostKeys at hst
      rw [if_neg hk] at hst
      have hsteq : st = (keys, fs) := by
        cases hst
        rfl
      rw [hsteq]
      intro hnil
      exact hk (by simp [show keys = [] from hnil])
  · intro keys2 fs2 hchk hfail
    unfold initHostKeysPhase
    rw [hchk]
    have hfl := loadHostKeys_fail_of_mem readFile parseKey configDir keys2 hfail
    cases hload : loadHostKeys readFile parseKey configDir keys2 with
    | error e => simp [hload, exceptIsOk]
    | ok hks =>
      rw [hload] at hfl
      simp [exceptIsOk] at hfl

/-- Witness for C10 at a concrete configuration: no keys configured, both
defaults generated, and an unparseable key file failing the phase. -/
theorem hostKeys_defaults_and_fatality_witness :
    ([Key.mk defaultPrivateRSAKeyName, Key.mk defaultPrivateECDSAKeyName] ≠ []) ∧
    exceptIsOk (initHostKeysPhase (fun _ => true) (fun _ => .ok "garbage")
      (fun _ => .error "ssh: no key found") "/etc/sftpgo" [] ⟨[]⟩) = false :=
  ⟨(hostKeys_defaults_and_fatality (fun _ => true) (fun _ => .ok "garbage")
      (fun _ => .error "ssh: no key found") "/etc/sftpgo" [] ⟨[]⟩).2.1
      ([Key.mk defaultPrivateRSAKeyName, Key.mk defaultPrivateECDSAKeyName],
        ⟨["/etc/sftpgo/id_rsa", "/etc/sftpgo/id_ecdsa"]⟩) rfl,
   (hostKeys_defaults_and_fatality (fun _ => true) (fun _ => .ok "garbage")
      (fun _ => .error "ssh: no key found") "/etc/sftpgo" [] ⟨[]⟩).2.2
      [Key.mk defaultPrivateRSAKeyName, Key.mk defaultPrivateECDSAKeyName]
      ⟨["/etc/sftpgo/id_rsa", "/etc/sftpgo/id_ecdsa"]⟩ rfl
      ⟨Key.mk defaultPrivateRSAKeyName, by simp, rfl⟩⟩

end Sftpd
